import Mathlib

/-!
Verification of the PP-Human pipeline orchestrator
(`deploy/pphuman/pipeline.py` of the Awesome-project repository).

The Python source is shallowly embedded: every method of `Pipeline`,
`Result` and `PipePredictor` that the claims touch is translated into an
executable Lean definition.  External collaborators (the model inference
engines, video capture, the `pipe_utils` helpers) are not part of the
source tree under verification; they are modelled from the specification
as oracle functions carried in an environment record, or as definitions
whose doc comment starts with `Modelled from the spec:`.

Python dictionaries are modelled as association lists of string keys and
`PyVal` values; `dict.update` is modelled key by key, which is exactly
the semantics the claims about the result store depend on.
-/

set_option autoImplicit false

namespace PPHuman

/-- A universal value type standing for the dynamically typed Python
values that flow through the pipeline dictionaries. -/
inductive PyVal where
  | int : Int → PyVal
  | str : String → PyVal
  | list : List PyVal → PyVal
  deriving Repr

/-- A Python `dict` with string keys, modelled as an association list in
insertion order. -/
abbrev Dict : Type := List (String × PyVal)

/-- First-match lookup in an association list (the semantics of reading a
Python dict key when the list has no duplicate keys). -/
def alookup {κ ν : Type} [DecidableEq κ] (k : κ) : List (κ × ν) → Option ν
  | [] => none
  | (k0, v) :: t => if k0 = k then some v else alookup k t

/-- `d[k] = v` in Python: overwrite the binding if the key is present,
append a fresh binding otherwise. -/
def dictSet (d : Dict) (k : String) (v : PyVal) : Dict :=
  if (alookup k d).isSome then
    d.map (fun kv => if kv.1 = k then (k, v) else kv)
  else
    d ++ [(k, v)]

/-- Python `d.update(new)`: set each binding of `new` into `d`, in order. -/
def pyDictUpdate (d new : Dict) : Dict :=
  new.foldl (fun acc kv => dictSet acc kv.1 kv.2) d

@[simp] theorem alookup_nil {κ ν : Type} [DecidableEq κ] (k : κ) :
    alookup (ν := ν) k [] = none := rfl

@[simp] theorem alookup_cons {κ ν : Type} [DecidableEq κ] (k k0 : κ) (v : ν)
    (t : List (κ × ν)) :
    alookup k ((k0, v) :: t) = if k0 = k then some v else alookup k t := rfl

theorem alookup_append {κ ν : Type} [DecidableEq κ] (k : κ)
    (l1 l2 : List (κ × ν)) :
    alookup k (l1 ++ l2) =
      match alookup k l1 with
      | some v => some v
      | none => alookup k l2 := by
  induction l1 with
  | nil => simp
  | cons kv t ih =>
    obtain ⟨k0, v⟩ := kv
    by_cases h : k0 = k <;> simp [h, ih]

theorem alookup_eq_none_of_not_mem_keys {κ ν : Type} [DecidableEq κ]
    (k : κ) (l : List (κ × ν)) (h : k ∉ l.map Prod.fst) :
    alookup k l = none := by
  induction l with
  | nil => rfl
  | cons kv t ih =>
    obtain ⟨k0, v⟩ := kv
    simp only [List.map_cons, List.mem_cons] at h
    push_neg at h
    simp [Ne.symm h.1, ih h.2]

theorem alookup_map_overwrite_self (d : Dict) (k : String) (v : PyVal)
    (h : (alookup k d).isSome) :
    alookup k (d.map (fun kv => if kv.1 = k then (k, v) else kv)) = some v := by
  induction d with
  | nil => simp at h
  | cons kv t ih =>
    obtain ⟨k0, v0⟩ := kv
    by_cases hk : k0 = k
    · simp [hk]
    · simp only [alookup_cons, hk, if_false] at h
      simpa [hk] using ih h

theorem alookup_map_overwrite_other (d : Dict) (k k' : String) (v : PyVal)
    (hne : k' ≠ k) :
    alookup k' (d.map (fun kv => if kv.1 = k then (k, v) else kv)) =
      alookup k' d := by
  induction d with
  | nil => simp
  | cons kv t ih =>
    obtain ⟨k0, v0⟩ := kv
    by_cases hk : k0 = k
    · subst hk
      simp [Ne.symm hne, hne.symm, ih]
    · simp [hk, ih]

theorem alookup_dictSet_self (d : Dict) (k : String) (v : PyVal) :
    alookup k (dictSet d k v) = some v := by
  unfold dictSet
  by_cases h : (alookup k d).isSome
  · simp only [h, if_true]
    exact alookup_map_overwrite_self d k v h
  · rw [if_neg h, alookup_append]
    rw [Option.not_isSome_iff_eq_none] at h
    simp [h]

theorem alookup_dictSet_other (d : Dict) (k k' : String) (v : PyVal)
    (hne : k' ≠ k) :
    alookup k' (dictSet d k v) = alookup k' d := by
  unfold dictSet
  by_cases h : (alookup k d).isSome
  · simp only [h, if_true]
    exact alookup_map_overwrite_other d k k' v hne
  · rw [if_neg h, alookup_append]
    cases hh : alookup k' d <;> simp [hh, hne, Ne.symm hne]

theorem alookup_pyDictUpdate (d new : Dict) (k : String)
    (hnodup : (new.map Prod.fst).Nodup) :
    alookup k (pyDictUpdate d new) =
      match alookup k new with
      | some v => some v
      | none => alookup k d := by
  induction new generalizing d with
  | nil => simp [pyDictUpdate]
  | cons kv t ih =>
    obtain ⟨k0, v0⟩ := kv
    simp only [List.map_cons, List.nodup_cons] at hnodup
    have step : pyDictUpdate d ((k0, v0) :: t) =
        pyDictUpdate (dictSet d k0 v0) t := rfl
    rw [step, ih (dictSet d k0 v0) hnodup.2]
    by_cases hk : k0 = k
    · subst hk
      have ht : alookup k0 t = none :=
        alookup_eq_none_of_not_mem_keys _ _ hnodup.1
      simp [ht, alookup_dictSet_self]
    · simp only [alookup_cons, hk, if_false]
      cases h : alookup k t <;>
        simp [h, alookup_dictSet_other d k0 k v0 (Ne.symm hk)]

/-! ## The `Result` store (pipeline.py lines 159-175) -/

/-- The five stage keys of `Result.res_dict` (pipeline.py lines 161-167). -/
def stageKeys : List String := ["det", "mot", "attr", "kpt", "action"]

/-- `Result` (pipeline.py lines 159-175): one Python dict per stage key.
The five dicts of `res_dict` are the five fields. -/
structure Result where
  det : Dict
  mot : Dict
  attr : Dict
  kpt : Dict
  action : Dict

/-- `Result.__init__`: every stage starts with an empty dict. -/
def Result.init : Result := ⟨[], [], [], [], []⟩

/-- `Result.get(name)` (lines 172-175): the stored dict for a known stage
name, `None` otherwise.  The Python method never raises. -/
def Result.get (r : Result) (name : String) : Option Dict :=
  if name = "det" then some r.det
  else if name = "mot" then some r.mot
  else if name = "attr" then some r.attr
  else if name = "kpt" then some r.kpt
  else if name = "action" then some r.action
  else none

/-- `Result.update(res, name)` (lines 169-170): `res_dict[name].update(res)`.
Indexing `res_dict` with an unknown name raises `KeyError`, modelled as
`none`; on a known name the stored dict is merged with `res` by Python
`dict.update` semantics. -/
def Result.updateRes (r : Result) (res : Dict) (name : String) : Option Result :=
  if name = "det" then some { r with det := pyDictUpdate r.det res }
  else if name = "mot" then some { r with mot := pyDictUpdate r.mot res }
  else if name = "attr" then some { r with attr := pyDictUpdate r.attr res }
  else if name = "kpt" then some { r with kpt := pyDictUpdate r.kpt res }
  else if name = "action" then some { r with action := pyDictUpdate r.action res }
  else none

/-- The pipeline's call sites of `Result.update` all use one of the five
fixed keys, for which `updateRes` always succeeds; `setRes` is that
always-successful restriction used in the step functions. -/
def Result.setRes (r : Result) (res : Dict) (name : String) : Result :=
  (r.updateRes res name).getD r

/-! ## Timing (`PipeTimer` from `pipe_utils`, not under src/) -/

/-- Modelled from the spec: one `Times` accumulator of `PipeTimer`
(pipe_utils, outside src/).  Spec section 4.5: `start`/`stop` bracket a
stage invocation.  Wall-clock durations are not statable, so an
accumulator records the number of completed start/stop intervals; a tick
"contributes one interval" to a stage iff it completes one bracket. -/
structure Times where
  started : Bool
  count : Nat

def Times.init : Times := ⟨false, 0⟩

/-- `Times.start()`. -/
def Times.start (t : Times) : Times := { t with started := true }

/-- `Times.end()` (named `stop` because `end` is reserved): completes an
interval. -/
def Times.stop (t : Times) : Times := ⟨false, t.count + 1⟩

/-- Modelled from the spec: `PipeTimer` (pipe_utils, outside src/), with
`total_time`, the per-stage `module_time` dict flattened into one field
per stage the code ever brackets, and the processed-unit counter
`img_num` (spec sections 3 and 4.5). -/
structure PipeTimer where
  total_time : Times
  det : Times
  mot : Times
  attr : Times
  kpt : Times
  action : Times
  img_num : Nat

def PipeTimer.init : PipeTimer :=
  ⟨Times.init, Times.init, Times.init, Times.init, Times.init, Times.init, 0⟩

def PipeTimer.startTotal (t : PipeTimer) : PipeTimer :=
  { t with total_time := t.total_time.start }
def PipeTimer.stopTotal (t : PipeTimer) : PipeTimer :=
  { t with total_time := t.total_time.stop }
def PipeTimer.startDet (t : PipeTimer) : PipeTimer :=
  { t with det := t.det.start }
def PipeTimer.stopDet (t : PipeTimer) : PipeTimer :=
  { t with det := t.det.stop }
def PipeTimer.startMot (t : PipeTimer) : PipeTimer :=
  { t with mot := t.mot.start }
def PipeTimer.stopMot (t : PipeTimer) : PipeTimer :=
  { t with mot := t.mot.stop }
def PipeTimer.startAttr (t : PipeTimer) : PipeTimer :=
  { t with attr := t.attr.start }
def PipeTimer.stopAttr (t : PipeTimer) : PipeTimer :=
  { t with attr := t.attr.stop }
def PipeTimer.addImg (t : PipeTimer) (n : Nat) : PipeTimer :=
  { t with img_num := t.img_num + n }

/-! ## Stage result shapes and external collaborators -/

/-- Images and cropped images are opaque tokens; the numeric raster
content is outside this pipeline's logic. -/
abbrev Image : Type := Nat

/-- One detection/tracking box row (class, score, coordinates for
detection; track id, class, score, coordinates for tracking).  Only its
identity as a row matters to the orchestrator. -/
abbrev Box : Type := List Int

/-- `DetectionResult` (spec section 3): flat box rows plus the per-image
partition `boxes_num`.  This is the structured view of the dict returned
by the external `Detector.predict_image`. -/
structure DetRes where
  boxes : List Box
  boxes_num : List Nat

/-- The dict actually stored under `det` by
`self.pipeline_res.update(det_res, 'det')`. -/
def DetRes.toDict (d : DetRes) : Dict :=
  [("boxes", PyVal.list (d.boxes.map (fun b => PyVal.list (b.map PyVal.int)))),
   ("boxes_num", PyVal.list (d.boxes_num.map (fun n => PyVal.int (Int.ofNat n))))]

/-- `TrackResult` (spec section 3): one row per tracked box, already in
the parsed form produced by `parse_mot_res` (pipe_utils, outside src/). -/
structure MotRes where
  boxes : List Box

/-- The dict stored under `mot`. -/
def MotRes.toDict (m : MotRes) : Dict :=
  [("boxes", PyVal.list (m.boxes.map (fun b => PyVal.list (b.map PyVal.int))))]

/-- Output of the external keypoint predictor for one frame: the dict
stored under `kpt`, plus the per-identity view the keypoint collector
consumes (spec section 3 `KeypointResult`; keypoint frames are opaque
tokens). -/
structure KptRes where
  toDict : Dict
  perId : List (Nat × Nat)

/-- Modelled from the spec: `KeyPointCollector` — the
`IdentityKeypointBuffer` of spec section 4.3 (its class is referenced by
pipeline.py line 274 but defined outside src/).  `hist` maps a track id
to its time-ascending buffered keypoint frames; `window` is the
configured window size W. -/
structure KptCollector where
  window : Nat
  hist : List (Nat × List Nat)

/-- Append one identity's new keypoint frame (spec section 4.3:
identities never observed before start with an empty history). -/
def kptAppend (h : List (Nat × List Nat)) (id : Nat) (f : Nat) :
    List (Nat × List Nat) :=
  if (alookup id h).isSome then
    h.map (fun e => if e.1 = id then (e.1, e.2 ++ [f]) else e)
  else
    h ++ [(id, [f])]

/-- `KeyPointCollector.update(kpt_res)`: append each identity's frame. -/
def KptCollector.update (c : KptCollector) (res : List (Nat × Nat)) :
    KptCollector :=
  { c with hist := res.foldl (fun h p => kptAppend h p.1 p.2) c.hist }

/-- `KeyPointCollector.state()`: whether some identity's window is full
("whether frame num is enough", pipeline.py line 387). -/
def KptCollector.state (c : KptCollector) : Bool :=
  c.hist.any (fun e => c.window ≤ e.2.length)

/-- `KeyPointCollector.collate()`: the ready identities' windows, and the
collector with those identities' histories consumed (spec section 4.3). -/
def KptCollector.collate (c : KptCollector) :
    List (Nat × List Nat) × KptCollector :=
  (c.hist.filter (fun e => c.window ≤ e.2.length),
   { c with hist := c.hist.filter (fun e => ¬ c.window ≤ e.2.length) })

/-! ## Predictor state and environments -/

/-- The configuration surface the orchestrator reads (spec section 6):
presence of the `ATTR`/`ACTION` sections (`cfg.get('ATTR', False)` is
truthy iff the section is present), the detector batch size, the action
window, and the `visual` flag. -/
structure PipeCfg where
  det_batch_size : Nat
  attr_enabled : Bool
  action_enabled : Bool
  action_window : Nat
  visual : Bool

/-- The mutable state of one `PipePredictor` (pipeline.py lines 213-276):
the flags and collaborator handles set in `__init__` plus the per-run
`Result` store, `PipeTimer` and keypoint collector. -/
structure PState where
  with_attr : Bool
  with_action : Bool
  is_video : Bool
  multi_camera : Bool
  warmup_frame : Nat
  det_batch_size : Nat
  visual : Bool
  pipeline_res : Result
  pipe_timer : PipeTimer
  kpt_collector : KptCollector

/-- `PipePredictor.__init__` (lines 213-276): `with_attr`/`with_action`
from the config sections, `warmup_frame = 1` (line 234), fresh `Result`
and `PipeTimer` (lines 235-236), and a fresh keypoint collector when the
action stage is configured (line 274). -/
def PipePredictor.init (cfg : PipeCfg) (is_video multi_camera : Bool) : PState :=
  { with_attr := cfg.attr_enabled
    with_action := cfg.action_enabled
    is_video := is_video
    multi_camera := multi_camera
    warmup_frame := 1
    det_batch_size := cfg.det_batch_size
    visual := cfg.visual
    pipeline_res := Result.init
    pipe_timer := PipeTimer.init
    kpt_collector := ⟨cfg.action_window, []⟩ }

/-- Helpers whose only effect is on one component of the state. -/
def PState.mapTimer (s : PState) (f : PipeTimer → PipeTimer) : PState :=
  { s with pipe_timer := f s.pipe_timer }

def PState.putRes (s : PState) (res : Dict) (name : String) : PState :=
  { s with pipeline_res := s.pipeline_res.setRes res name }

def PState.mapColl (s : PState) (f : KptCollector → KptCollector) : PState :=
  { s with kpt_collector := f s.kpt_collector }

/-- `if i > self.warmup_frame:` timer bracket. -/
def PState.gatedTimer (s : PState) (i : Nat) (f : PipeTimer → PipeTimer) : PState :=
  if s.warmup_frame < i then s.mapTimer f else s

/-- External collaborators of the image-mode pipeline.  `decode` models
`decode_image` (python/preprocess), `det_predict` the external
`Detector.predict_image`, `attr_predict` the external
`AttrDetector.predict_image` restricted to the `output` list the code
reads from its result dict, and `crop1` the cropping of one box from one
image (spec section 4.2). -/
structure ImgEnv where
  decode : String → Image
  det_predict : List Image → DetRes
  attr_predict : List Image → List PyVal
  crop1 : Image → Box → Image

/-- External collaborators of the video-mode pipeline.  `mot_predict`
models `SDE_Detector.predict_image` composed with `parse_mot_res`
(pipe_utils, outside src/), producing the spec's `TrackResult`;
`attr_predict` returns the attribute result dict stored as-is;
`kpt_predict` and `action_predict` model the keypoint and action
predictors referenced at pipeline.py lines 273-275 but defined outside
src/. -/
structure VidEnv where
  mot_predict : Image → MotRes
  attr_predict : List Image → Dict
  kpt_predict : List Image → KptRes
  action_predict : List (Nat × List Nat) → Dict
  crop1 : Image → Box → Image

/-! ## Region extraction (`pipe_utils`, not under src/) -/

/-- Slice the flat box sequence back into per-image groups using
`boxes_num` (spec sections 3 and 4.2). -/
def sliceBoxes : List Nat → List Box → List (List Box)
  | [], _ => []
  | n :: ns, bs => bs.take n :: sliceBoxes ns (bs.drop n)

/-- Modelled from the spec: `crop_image_with_det` (pipe_utils, outside
src/) — spec section 4.2, detection-box source: per-image crop groups,
one crop per box of that image. -/
def crop_image_with_det (env : ImgEnv) (batch : List Image) (det : DetRes) :
    List (List Image) :=
  (batch.zip (sliceBoxes det.boxes_num det.boxes)).map
    (fun p => p.2.map (env.crop1 p.1))

/-- Modelled from the spec: `crop_image_with_mot` (pipe_utils, outside
src/) — spec section 4.2, tracking-box source: one crop per track box of
the single current frame. -/
def crop_image_with_mot (env : VidEnv) (frame : Image) (mot : MotRes) :
    List Image :=
  mot.boxes.map (env.crop1 frame)

/-! ## Image mode (`PipePredictor.predict_image`, lines 287-331) -/

/-- `math.ceil(float(len(input)) / batch_size)` (line 290), on `Nat`. -/
def batch_loop_cnt (n bs : Nat) : Nat := (n + bs - 1) / bs

/-- `batch_file = input[i * bs : min((i + 1) * bs, len(input))]`
(lines 293-295). -/
def sliceBatch (input : List String) (bs i : Nat) : List String :=
  (input.drop (i * bs)).take (min ((i + 1) * bs) input.length - i * bs)

/-- The successive detector batches issued by `predict_image`'s loop. -/
def batchesOf (input : List String) (bs : Nat) : List (List String) :=
  (List.range (batch_loop_cnt input.length bs)).map (sliceBatch input bs)

/-- One iteration of the `predict_image` batch loop (lines 292-331),
for batch index `i`. -/
def imageStep (env : ImgEnv) (input : List String) (s : PState) (i : Nat) :
    PState :=
  let batch_file := sliceBatch input s.det_batch_size i
  let batch_input := batch_file.map env.decode
  let s := s.gatedTimer i (fun t => (t.startTotal).startDet)
  let det_res := env.det_predict batch_input
  let s := s.gatedTimer i PipeTimer.stopDet
  let s := s.putRes det_res.toDict "det"
  let s :=
    if s.with_attr then
      let crop_inputs := crop_image_with_det env batch_input det_res
      let s := s.gatedTimer i PipeTimer.startAttr
      let attr_res_list :=
        crop_inputs.foldl (fun acc c => acc ++ env.attr_predict c) []
      let s := s.gatedTimer i PipeTimer.stopAttr
      s.putRes [("output", PyVal.list attr_res_list)] "attr"
    else s
  let s := s.mapTimer (fun t => t.addImg batch_input.length)
  let s := s.gatedTimer i PipeTimer.stopTotal
  -- `visualize_image` (line 331) only reads the result store and writes
  -- files; it does not change the predictor state.
  s

/-- `PipePredictor.predict_image` (lines 287-331). -/
def predict_image (env : ImgEnv) (s : PState) (input : List String) : PState :=
  (List.range (batch_loop_cnt input.length s.det_batch_size)).foldl
    (imageStep env input) s

/-! ## Video mode (`PipePredictor.predict_video`, lines 333-411) -/

/-- The per-frame body of the `predict_video` loop (lines 358-397) for
frame index `frame_id`.  The only failing path is the action branch:
when the collector reports a full window, line 393 evaluates
`self.pipeline_res.update(action, 'action')` where the name `action` is
undefined (the computed value is `action_res`), so Python raises
`NameError` before the tick completes. -/
def stepVideo (env : VidEnv) (s0 : PState) (frame_id : Nat) (frame : Image) :
    Except String PState :=
  let s := s0.gatedTimer frame_id (fun t => (t.startTotal).startMot)
  let mot_res := env.mot_predict frame
  let s := s.gatedTimer frame_id PipeTimer.stopMot
  let s := s.putRes mot_res.toDict "mot"
  let crop_input :=
    if s.with_attr || s.with_action then crop_image_with_mot env frame mot_res
    else []
  let s :=
    if s.with_attr then
      let s := s.gatedTimer frame_id PipeTimer.startAttr
      let attr_res := env.attr_predict crop_input
      let s := s.gatedTimer frame_id PipeTimer.stopAttr
      s.putRes attr_res "attr"
    else s
  let finish : PState → PState := fun s =>
    s.gatedTimer frame_id (fun t => (t.addImg 1).stopTotal)
  if s.with_action then
    let kpt_res := env.kpt_predict crop_input
    let s := s.putRes kpt_res.toDict "kpt"
    let s := s.mapColl (fun c => c.update kpt_res.perId)
    if s.kpt_collector.state then
      -- lines 390-392 compute `action_input` and `action_res`, then
      -- line 393 references the undefined name `action`: NameError.
      Except.error "NameError: name action is not defined"
    else Except.ok (finish s)
  else Except.ok (finish s)

/-- How one run of the `while (1)` loop of `predict_video` ended. -/
inductive VideoEnd where
  | finished
  | crashed
  | starved
  deriving Repr, DecidableEq

/-- Observable outcome of the video loop: the final predictor state, the
frames whose tick completed (in order), the number of frames handed to
the writer, how the loop ended, and whether `writer.release()`
(line 410) ran. -/
structure VideoRun where
  state : PState
  processed : List Image
  written : Nat
  ending : VideoEnd
  writer_released : Bool

/-- The `while (1)` loop (lines 351-410).  `reads` is the sequence of
`capture.read()` outcomes: `some frame` for a successful read, `none`
for a failed one.  The loop breaks at the first failed read and then
releases the writer; a `NameError` inside a tick aborts everything
before the release; `starved` marks exhausting `reads` without a failed
read (a source that never signalled end-of-stream in the modelled
window). -/
def videoLoop (env : VidEnv) (s : PState) (frame_id : Nat)
    (acc : List Image) (written : Nat) :
    List (Option Image) → VideoRun
  | [] => ⟨s, acc, written, VideoEnd.starved, false⟩
  | none :: _ => ⟨s, acc, written, VideoEnd.finished, true⟩
  | some frame :: rest =>
    match stepVideo env s frame_id frame with
    | Except.error _ => ⟨s, acc, written, VideoEnd.crashed, false⟩
    | Except.ok s1 =>
      -- multi-camera parsing (line 401) and visualization (lines 405-408)
      -- read the result store; only the writer count is observable here.
      let written1 := if s1.visual then written + 1 else written
      videoLoop env s1 (frame_id + 1) (acc ++ [frame]) written1 rest

/-- `PipePredictor.predict_video` (lines 333-411): `frame_id` starts at 0. -/
def predict_video (env : VidEnv) (s : PState) (reads : List (Option Image)) :
    VideoRun :=
  videoLoop env s 0 [] 0 reads

/-! ## Input parsing (`Pipeline._parse_input`, lines 113-143) -/

/-- The `video_file` argument: absent, one path, or a list of paths. -/
inductive VideoArg where
  | noVideo
  | one (path : String)
  | many (paths : List String)
  deriving Repr, DecidableEq

/-- The `camera_id` argument: one id (default `-1`) or a list of ids. -/
inductive CameraArg where
  | cam (id : Int)
  | cams (ids : List Int)
  deriving Repr, DecidableEq

/-- What `_parse_input` returns together with the two flags it sets. -/
inductive ParsedKind where
  | images (files : List String)
  | singleVideo (path : String)
  | multiVideo (paths : List String)
  | singleCamera (id : Int)
  | multiCamera (ids : List Int)
  deriving Repr, DecidableEq

structure Parsed where
  kind : ParsedKind
  is_video : Bool
  multi_camera : Bool
  deriving Repr, DecidableEq

/-- `Pipeline._parse_input` (lines 113-143).  `list_images` models
`get_test_images(image_dir, image_file)` (pipe_utils, outside src/;
spec section 4.1: a finite ordered sequence of image file references).
The branches are tried in the source's order: images, then video, then
camera; only when all are absent is `ValueError` raised (line 139). -/
def parse_input (list_images : Option String → Option String → List String)
    (image_file image_dir : Option String) (video_file : VideoArg)
    (camera_id : CameraArg) : Except String Parsed :=
  if image_file.isSome || image_dir.isSome then
    Except.ok ⟨ParsedKind.images (list_images image_dir image_file), false, false⟩
  else
    match video_file with
    | VideoArg.one v => Except.ok ⟨ParsedKind.singleVideo v, true, false⟩
    | VideoArg.many vs => Except.ok ⟨ParsedKind.multiVideo vs, true, true⟩
    | VideoArg.noVideo =>
      match camera_id with
      | CameraArg.cams ids => Except.ok ⟨ParsedKind.multiCamera ids, true, true⟩
      | CameraArg.cam id =>
        if id ≠ -1 then Except.ok ⟨ParsedKind.singleCamera id, true, false⟩
        else Except.error "Illegal Input"

/-! ## Multi-stream runs (`Pipeline.__init__` / `Pipeline.run`) -/

/-- `Pipeline.__init__` in the multi-camera branch (lines 84-98): one
`PipePredictor(cfg, is_video=True, multi_camera=True, ...)` per input
stream. -/
def Pipeline.initMulti (cfg : PipeCfg)
    (streams : List (List (Option Image))) : List PState :=
  streams.map (fun _ => PipePredictor.init cfg true true)

/-- `Pipeline.run` in the multi-camera branch (lines 146-153): each
predictor runs on its own stream and its result is collected.
`mtmct_process` (line 153) is the external cross-camera fusion
collaborator (spec sections 1 and 6); it consumes the collected results
downstream and does not alter the per-stream runs. -/
def Pipeline.runMulti (env : VidEnv) (cfg : PipeCfg)
    (streams : List (List (Option Image))) : List VideoRun :=
  ((Pipeline.initMulti cfg streams).zip streams).map
    (fun pi => predict_video env pi.1 pi.2)

/-! ## Shared helper lemmas -/

theorem setRes_attr_field (r : Result) (res : Dict) :
    (r.setRes res "attr").attr = pyDictUpdate r.attr res := rfl

@[simp] theorem mapTimer_with_attr (s : PState) (f : PipeTimer → PipeTimer) :
    (s.mapTimer f).with_attr = s.with_attr := rfl
@[simp] theorem mapTimer_with_action (s : PState) (f : PipeTimer → PipeTimer) :
    (s.mapTimer f).with_action = s.with_action := rfl
@[simp] theorem mapTimer_warmup_frame (s : PState) (f : PipeTimer → PipeTimer) :
    (s.mapTimer f).warmup_frame = s.warmup_frame := rfl
@[simp] theorem mapTimer_det_batch_size (s : PState) (f : PipeTimer → PipeTimer) :
    (s.mapTimer f).det_batch_size = s.det_batch_size := rfl
@[simp] theorem mapTimer_visual (s : PState) (f : PipeTimer → PipeTimer) :
    (s.mapTimer f).visual = s.visual := rfl
@[simp] theorem mapTimer_pipeline_res (s : PState) (f : PipeTimer → PipeTimer) :
    (s.mapTimer f).pipeline_res = s.pipeline_res := rfl
@[simp] theorem mapTimer_kpt_collector (s : PState) (f : PipeTimer → PipeTimer) :
    (s.mapTimer f).kpt_collector = s.kpt_collector := rfl
@[simp] theorem mapTimer_pipe_timer (s : PState) (f : PipeTimer → PipeTimer) :
    (s.mapTimer f).pipe_timer = f s.pipe_timer := rfl

@[simp] theorem putRes_with_attr (s : PState) (res : Dict) (n : String) :
    (s.putRes res n).with_attr = s.with_attr := rfl
@[simp] theorem putRes_with_action (s : PState) (res : Dict) (n : String) :
    (s.putRes res n).with_action = s.with_action := rfl
@[simp] theorem putRes_warmup_frame (s : PState) (res : Dict) (n : String) :
    (s.putRes res n).warmup_frame = s.warmup_frame := rfl
@[simp] theorem putRes_det_batch_size (s : PState) (res : Dict) (n : String) :
    (s.putRes res n).det_batch_size = s.det_batch_size := rfl
@[simp] theorem putRes_visual (s : PState) (res : Dict) (n : String) :
    (s.putRes res n).visual = s.visual := rfl
@[simp] theorem putRes_pipe_timer (s : PState) (res : Dict) (n : String) :
    (s.putRes res n).pipe_timer = s.pipe_timer := rfl
@[simp] theorem putRes_kpt_collector (s : PState) (res : Dict) (n : String) :
    (s.putRes res n).kpt_collector = s.kpt_collector := rfl
@[simp] theorem putRes_pipeline_res (s : PState) (res : Dict) (n : String) :
    (s.putRes res n).pipeline_res = s.pipeline_res.setRes res n := rfl

@[simp] theorem mapColl_with_attr (s : PState) (f : KptCollector → KptCollector) :
    (s.mapColl f).with_attr = s.with_attr := rfl
@[simp] theorem mapColl_with_action (s : PState) (f : KptCollector → KptCollector) :
    (s.mapColl f).with_action = s.with_action := rfl
@[simp] theorem mapColl_warmup_frame (s : PState) (f : KptCollector → KptCollector) :
    (s.mapColl f).warmup_frame = s.warmup_frame := rfl
@[simp] theorem mapColl_visual (s : PState) (f : KptCollector → KptCollector) :
    (s.mapColl f).visual = s.visual := rfl
@[simp] theorem mapColl_pipe_timer (s : PState) (f : KptCollector → KptCollector) :
    (s.mapColl f).pipe_timer = s.pipe_timer := rfl
@[simp] theorem mapColl_pipeline_res (s : PState) (f : KptCollector → KptCollector) :
    (s.mapColl f).pipeline_res = s.pipeline_res := rfl
@[simp] theorem mapColl_kpt_collector (s : PState) (f : KptCollector → KptCollector) :
    (s.mapColl f).kpt_collector = f s.kpt_collector := rfl

@[simp] theorem gatedTimer_with_attr (s : PState) (i : Nat) (f : PipeTimer → PipeTimer) :
    (s.gatedTimer i f).with_attr = s.with_attr := by
  unfold PState.gatedTimer; split <;> rfl
@[simp] theorem gatedTimer_with_action (s : PState) (i : Nat) (f : PipeTimer → PipeTimer) :
    (s.gatedTimer i f).with_action = s.with_action := by
  unfold PState.gatedTimer; split <;> rfl
@[simp] theorem gatedTimer_warmup_frame (s : PState) (i : Nat) (f : PipeTimer → PipeTimer) :
    (s.gatedTimer i f).warmup_frame = s.warmup_frame := by
  unfold PState.gatedTimer; split <;> rfl
@[simp] theorem gatedTimer_det_batch_size (s : PState) (i : Nat) (f : PipeTimer → PipeTimer) :
    (s.gatedTimer i f).det_batch_size = s.det_batch_size := by
  unfold PState.gatedTimer; split <;> rfl
@[simp] theorem gatedTimer_visual (s : PState) (i : Nat) (f : PipeTimer → PipeTimer) :
    (s.gatedTimer i f).visual = s.visual := by
  unfold PState.gatedTimer; split <;> rfl
@[simp] theorem gatedTimer_pipeline_res (s : PState) (i : Nat) (f : PipeTimer → PipeTimer) :
    (s.gatedTimer i f).pipeline_res = s.pipeline_res := by
  unfold PState.gatedTimer; split <;> rfl
@[simp] theorem gatedTimer_kpt_collector (s : PState) (i : Nat) (f : PipeTimer → PipeTimer) :
    (s.gatedTimer i f).kpt_collector = s.kpt_collector := by
  unfold PState.gatedTimer; split <;> rfl
theorem gatedTimer_pipe_timer (s : PState) (i : Nat) (f : PipeTimer → PipeTimer) :
    (s.gatedTimer i f).pipe_timer =
      if s.warmup_frame < i then f s.pipe_timer else s.pipe_timer := by
  unfold PState.gatedTimer; split <;> rfl

theorem imageStep_preserves_flags (env : ImgEnv) (input : List String)
    (s : PState) (i : Nat) :
    (imageStep env input s i).with_attr = s.with_attr ∧
    (imageStep env input s i).with_action = s.with_action ∧
    (imageStep env input s i).warmup_frame = s.warmup_frame ∧
    (imageStep env input s i).det_batch_size = s.det_batch_size := by
  unfold imageStep
  dsimp only
  split <;> simp

theorem stepVideo_preserves_flags (env : VidEnv) (s s' : PState)
    (frame_id : Nat) (frame : Image)
    (h : stepVideo env s frame_id frame = Except.ok s') :
    s'.with_attr = s.with_attr ∧
    s'.with_action = s.with_action ∧
    s'.warmup_frame = s.warmup_frame ∧
    s'.visual = s.visual := by
  unfold stepVideo at h
  dsimp only at h
  split_ifs at h <;> simp only [Except.ok.injEq] at h <;> subst h <;> simp

/-! ## Claim C10 -/

/-- C10: `Result.get(name)` returns the currently stored dict for each of
the five stage keys and `None` (here `none`) for every other name — it is
total, never raising — while `Result.update(res, name)` is the one
`Result` operation that can fail, and it fails exactly on unknown
names. -/
theorem C10_result_get_total_update_partial :
    ∀ (r : Result) (name : String) (res : Dict),
      (r.get "det" = some r.det ∧ r.get "mot" = some r.mot ∧
        r.get "attr" = some r.attr ∧ r.get "kpt" = some r.kpt ∧
        r.get "action" = some r.action) ∧
      ((r.get name).isSome ↔ name ∈ stageKeys) ∧
      (Result.init.get name = if name ∈ stageKeys then some [] else none) ∧
      ((r.updateRes res name).isSome ↔ name ∈ stageKeys) := by
  intro r name res
  refine ⟨⟨rfl, rfl, rfl, rfl, rfl⟩, ?_, ?_, ?_⟩ <;>
    · simp only [Result.get, Result.updateRes, Result.init, stageKeys]
      split_ifs <;> simp_all

/-! ## Claim C4 -/

/-- Modelled from the spec: `get_test_images` (pipe_utils, outside src/)
as used in the C4 counterexample — a finite ordered sequence of image
file references (spec section 4.1). -/
def listImages0 : Option String → Option String → List String :=
  fun _ f => match f with
    | some s => [s]
    | none => []

/-- Whether `_parse_input` raised. -/
def parseFails (x : Except String Parsed) : Bool :=
  match x with
  | Except.error _ => true
  | Except.ok _ => false

/-- C4 counterexample: with both an image file and a video file supplied
(an ambiguous combination, two kinds of source), `_parse_input` does not
raise — it silently prefers the image input — contradicting the claim
that ambiguous combinations fail before any processing. -/
theorem C4_counterexample :
    parse_input listImages0 (some "a.jpg") none (VideoArg.one "v.mp4")
        (CameraArg.cam (-1))
      = Except.ok ⟨ParsedKind.images ["a.jpg"], false, false⟩ := rfl

/-- C4 amended: `_parse_input` raises the invalid-input `ValueError`
exactly when zero sources are usable (`image_file`, `image_dir`,
`video_file` all absent and `camera_id = -1`); when several kinds of
source are supplied no error is raised — the branch order gives images
precedence over video over camera. -/
theorem C4_amended_error_iff_no_source :
    ∀ (L : Option String → Option String → List String)
      (i d : Option String) (v : VideoArg) (c : CameraArg),
      parseFails (parse_input L i d v c) = true ↔
        (i = none ∧ d = none ∧ v = VideoArg.noVideo ∧ c = CameraArg.cam (-1)) := by
  intro L i d v c
  cases i <;> cases d <;> cases v <;> cases c <;>
    simp [parse_input, parseFails]
  all_goals
    rename_i id
    by_cases hid : id = -1 <;> simp [hid, parseFails]

/-! ## Claim C2 -/

theorem sliceBatch_eq_drop_take (input : List String) (bs i : Nat) :
    sliceBatch input bs i = (input.drop (i * bs)).take bs := by
  unfold sliceBatch
  rw [List.take_eq_take]
  simp only [List.length_drop]
  have h : (i + 1) * bs = i * bs + bs := by ring
  rw [h]
  omega

theorem flatten_range_chunks :
    ∀ (k : Nat) (input : List String) (bs : Nat), 0 < bs →
      batch_loop_cnt input.length bs = k →
      ((List.range k).map (fun i => (input.drop (i * bs)).take bs)).flatten
        = input := by
  intro k
  induction k with
  | zero =>
    intro input bs hbs hk
    have hlen : input.length = 0 := by
      by_contra h0
      have h1 : 1 ≤ batch_loop_cnt input.length bs := by
        unfold batch_loop_cnt
        rw [Nat.le_div_iff_mul_le hbs]
        omega
      omega
    simp [List.length_eq_zero.mp hlen]
  | succ k ih =>
    intro input bs hbs hk
    have hn : input.length ≠ 0 := by
      intro h0
      unfold batch_loop_cnt at hk
      rw [h0] at hk
      have hz : (0 + bs - 1) / bs = 0 := Nat.div_eq_of_lt (by omega)
      omega
    have hk2 : (input.length - 1) / bs = k := by
      unfold batch_loop_cnt at hk
      have hform : input.length + bs - 1 = (input.length - 1) + bs := by omega
      rw [hform, Nat.add_div_right _ hbs] at hk
      omega
    have hrec : batch_loop_cnt (input.drop bs).length bs = k := by
      unfold batch_loop_cnt
      rw [List.length_drop]
      by_cases hle : bs ≤ input.length
      · have heq : input.length - bs + bs - 1 = input.length - 1 := by omega
        rw [heq]
        exact hk2
      · have heq : input.length - bs + bs - 1 = bs - 1 := by omega
        rw [heq, Nat.div_eq_of_lt (by omega)]
        have hz : (input.length - 1) / bs = 0 := Nat.div_eq_of_lt (by omega)
        omega
    rw [List.range_succ_eq_map]
    simp only [List.map_cons, List.map_map, List.flatten_cons, Nat.zero_mul,
      List.drop_zero]
    have hshift : ((List.range k).map
          ((fun i => (input.drop (i * bs)).take bs) ∘ Nat.succ))
        = (List.range k).map (fun i => ((input.drop bs).drop (i * bs)).take bs) := by
      apply List.map_congr_left
      intro i _
      simp only [Function.comp]
      rw [List.drop_drop]
      congr 1
      simp only [Nat.succ_eq_add_one]
      ring_nf
    rw [hshift, ih (input.drop bs) bs hbs hrec]
    exact List.take_append_drop bs input

/-- C2: the successive detector batches
`input[i * bs : min((i + 1) * bs, len(input))]` issued by the
`predict_image` loop partition the input in order — their concatenation
is exactly the input list, so every image is processed exactly once —
and in the concrete 3-image, `batch_size = 2` scenario the loop issues
exactly 2 batches, of sizes 2 and 1. -/
theorem C2_batches_partition :
    ∀ (input : List String) (bs : Nat), 0 < bs →
      (batchesOf input bs).flatten = input ∧
      batchesOf ["a", "b", "c"] 2 = [["a", "b"], ["c"]] := by
  intro input bs hbs
  refine ⟨?_, by rfl⟩
  unfold batchesOf
  have hcong : (List.range (batch_loop_cnt input.length bs)).map
        (sliceBatch input bs)
      = (List.range (batch_loop_cnt input.length bs)).map
        (fun i => (input.drop (i * bs)).take bs) := by
    apply List.map_congr_left
    intro i _
    exact sliceBatch_eq_drop_take input bs i
  rw [hcong]
  exact flatten_range_chunks (batch_loop_cnt input.length bs) input bs hbs rfl

/-- C2 witness: the theorem applied at the concrete 3-image,
batch-size-2 scenario. -/
theorem C2_witness :
    (0 < 2) ∧
    ((batchesOf ["a", "b", "c"] 2).flatten = ["a", "b", "c"] ∧
      batchesOf ["a", "b", "c"] 2 = [["a", "b"], ["c"]]) :=
  ⟨by decide, C2_batches_partition ["a", "b", "c"] 2 (by decide)⟩

/-! ## Claim C6 -/

/-- Concrete video environment for C6: one track box per frame, and an
attribute predictor whose result dict for frame 0 carries the key `x`
while the one for frame 1 carries only `output`. -/
def envC6 : VidEnv :=
  { mot_predict := fun _ => ⟨[[0]]⟩
    attr_predict := fun crops =>
      if crops = [0] then [("x", PyVal.int 1)] else [("output", PyVal.int 0)]
    kpt_predict := fun _ => ⟨[], []⟩
    action_predict := fun _ => []
    crop1 := fun frame _ => frame }

def cfgC6 : PipeCfg := ⟨1, true, false, 30, false⟩

def sC6 : PState := PipePredictor.init cfgC6 true false

/-- C6 counterexample: after the attribute write of tick 1, the stored
`attr` entry still contains the binding `x = 1` produced at tick 0
alongside tick 1's own `output` binding — `Result.update` merges with
`dict.update` instead of replacing, so data from the previous frame
survives into the next tick's stored result. -/
theorem C6_counterexample :
    alookup "x"
        ((predict_video envC6 sC6 [some 0, some 1, none]).state.pipeline_res.attr)
      = some (PyVal.int 1) ∧
    alookup "output"
        ((predict_video envC6 sC6 [some 0, some 1, none]).state.pipeline_res.attr)
      = some (PyVal.int 0) := ⟨rfl, rfl⟩

/-- C6 amended: a stage write merges the new result into the stored dict
key by key (Python `dict.update`): a key bound by the new result reads
as the new value, while a stored key absent from the new result survives
from the previous tick.  Stale data can therefore outlive a tick
whenever consecutive results bind different key sets; only the keys
re-written each tick are refreshed. -/
theorem C6_amended_update_merges :
    ∀ (r : Result) (res : Dict) (k : String),
      (res.map Prod.fst).Nodup →
      alookup k ((r.setRes res "attr").attr) =
        match alookup k res with
        | some v => some v
        | none => alookup k r.attr := by
  intro r res k h
  rw [setRes_attr_field]
  exact alookup_pyDictUpdate r.attr res k h

def rC6w : Result := { Result.init with attr := [("b", PyVal.int 2)] }

/-- C6 witness: the amended theorem applied at a concrete store and
result. -/
theorem C6_witness :
    alookup "b" ((rC6w.setRes [("a", PyVal.int 3)] "attr").attr)
      = some (PyVal.int 2) :=
  (C6_amended_update_merges rC6w [("a", PyVal.int 3)] "b" (by simp)).trans rfl

/-! ## Claim C8 -/

theorem foldl_imageStep_preserves_flags (env : ImgEnv) (input : List String) :
    ∀ (l : List Nat) (s : PState),
      (l.foldl (imageStep env input) s).with_attr = s.with_attr ∧
      (l.foldl (imageStep env input) s).with_action = s.with_action := by
  intro l
  induction l with
  | nil => intro s; exact ⟨rfl, rfl⟩
  | cons a t ih =>
    intro s
    simp only [List.foldl_cons]
    obtain ⟨ha, hb, -, -⟩ := imageStep_preserves_flags env input s a
    obtain ⟨ha2, hb2⟩ := ih (imageStep env input s a)
    exact ⟨ha2.trans ha, hb2.trans hb⟩

theorem videoLoop_preserves_flags (env : VidEnv) :
    ∀ (reads : List (Option Image)) (s : PState) (fid : Nat)
      (acc : List Image) (w : Nat),
      (videoLoop env s fid acc w reads).state.with_attr = s.with_attr ∧
      (videoLoop env s fid acc w reads).state.with_action = s.with_action := by
  intro reads
  induction reads with
  | nil => intro s fid acc w; exact ⟨rfl, rfl⟩
  | cons r t ih =>
    intro s fid acc w
    cases r with
    | none => exact ⟨rfl, rfl⟩
    | some fr =>
      cases h : stepVideo env s fid fr with
      | error e =>
        simp only [videoLoop, h]
        exact ⟨trivial, trivial⟩
      | ok s1 =>
        simp only [videoLoop, h]
        have hp := stepVideo_preserves_flags env s s1 fid fr h
        have hi := ih s1 (fid + 1) (acc ++ [fr])
          (if s1.visual then w + 1 else w)
        exact ⟨hi.1.trans hp.1, hi.2.trans hp.2.1⟩

/-- C8: the optional-stage flags are fixed at construction —
`PipePredictor.__init__` computes `with_attr`/`with_action` from the
configuration once, and neither `predict_image` nor `predict_video`
(hence `run`) ever changes them, so every tick of a run sees the same
stage graph. -/
theorem C8_stage_flags_fixed :
    ∀ (cfg : PipeCfg) (iv mc : Bool) (envI : ImgEnv) (envV : VidEnv)
      (s : PState) (input : List String) (reads : List (Option Image)),
      (PipePredictor.init cfg iv mc).with_attr = cfg.attr_enabled ∧
      (PipePredictor.init cfg iv mc).with_action = cfg.action_enabled ∧
      (predict_image envI s input).with_attr = s.with_attr ∧
      (predict_image envI s input).with_action = s.with_action ∧
      (predict_video envV s reads).state.with_attr = s.with_attr ∧
      (predict_video envV s reads).state.with_action = s.with_action := by
  intro cfg iv mc envI envV s input reads
  refine ⟨rfl, rfl, ?_, ?_, ?_, ?_⟩
  · exact (foldl_imageStep_preserves_flags envI input _ s).1
  · exact (foldl_imageStep_preserves_flags envI input _ s).2
  · exact (videoLoop_preserves_flags envV reads s 0 [] 0).1
  · exact (videoLoop_preserves_flags envV reads s 0 [] 0).2

/-! ## Claim C1 -/

theorem imageStep_timer_delta (env : ImgEnv) (input : List String)
    (s : PState) (i : Nat) :
    (imageStep env input s i).pipe_timer.img_num
        = s.pipe_timer.img_num + (sliceBatch input s.det_batch_size i).length ∧
    (imageStep env input s i).pipe_timer.det.count
        = s.pipe_timer.det.count + (if s.warmup_frame < i then 1 else 0) ∧
    (imageStep env input s i).pipe_timer.attr.count
        = s.pipe_timer.attr.count
          + (if s.with_attr = true ∧ s.warmup_frame < i then 1 else 0) ∧
    (imageStep env input s i).pipe_timer.total_time.count
        = s.pipe_timer.total_time.count + (if s.warmup_frame < i then 1 else 0) := by
  unfold imageStep
  dsimp only
  simp only [gatedTimer_with_attr, gatedTimer_warmup_frame,
    gatedTimer_det_batch_size, putRes_with_attr, putRes_warmup_frame,
    putRes_det_batch_size, putRes_pipe_timer, mapTimer_pipe_timer,
    gatedTimer_pipe_timer]
  split_ifs <;>
    simp_all [PipeTimer.startTotal, PipeTimer.stopTotal, PipeTimer.startDet,
      PipeTimer.stopDet, PipeTimer.startAttr, PipeTimer.stopAttr,
      PipeTimer.addImg, Times.start, Times.stop, List.length_map,
      gatedTimer_pipe_timer] <;>
    (try (split_ifs <;> simp_all)) <;> (try omega)

theorem stepVideo_timer_delta (env : VidEnv) (s s' : PState)
    (fid : Nat) (fr : Image)
    (h : stepVideo env s fid fr = Except.ok s') :
    s'.pipe_timer.img_num
        = s.pipe_timer.img_num + (if s.warmup_frame < fid then 1 else 0) ∧
    s'.pipe_timer.mot.count
        = s.pipe_timer.mot.count + (if s.warmup_frame < fid then 1 else 0) ∧
    s'.pipe_timer.attr.count
        = s.pipe_timer.attr.count
          + (if s.with_attr = true ∧ s.warmup_frame < fid then 1 else 0) ∧
    s'.pipe_timer.total_time.count
        = s.pipe_timer.total_time.count
          + (if s.warmup_frame < fid then 1 else 0) := by
  unfold stepVideo at h
  dsimp only at h
  split_ifs at h <;> simp only [Except.ok.injEq] at h <;> subst h <;>
    simp_all [PipeTimer.startTotal, PipeTimer.stopTotal, PipeTimer.startMot,
      PipeTimer.stopMot, PipeTimer.startAttr, PipeTimer.stopAttr,
      PipeTimer.addImg, Times.start, Times.stop, gatedTimer_pipe_timer] <;>
    (try (split_ifs <;> simp_all))

/-- Concrete image environment and state for C1: a detector that returns
no boxes and an aligned attribute predictor; attribute stage enabled. -/
def envI1 : ImgEnv :=
  { decode := fun _ => 0
    det_predict := fun _ => ⟨[], [0]⟩
    attr_predict := fun crops => crops.map (fun _ => PyVal.int 0)
    crop1 := fun f _ => f }

def cfgI1 : PipeCfg := ⟨1, true, false, 30, false⟩

def sI1 : PState := PipePredictor.init cfgI1 false false

/-- C1 counterexample: in image mode the processed-unit counter is not
warm-up gated.  With the default `warmup_frame = 1`, the batch of tick 0
is a warm-up tick (its index is at most `warmup_frame`, and indeed its
timing contribution is zero), yet it still adds its batch size to
`img_num` — contradicting the claim that warm-up ticks contribute zero
to `img_num` uniformly in both modes. -/
theorem C1_counterexample :
    sI1.warmup_frame = 1 ∧
    (imageStep envI1 ["a.jpg"] sI1 0).pipe_timer.total_time.count = 0 ∧
    (imageStep envI1 ["a.jpg"] sI1 0).pipe_timer.img_num = 1 :=
  ⟨rfl, rfl, rfl⟩

/-- C1 amended: warm-up gating applies to all duration accumulators in
both modes — a tick with index at most `warmup_frame` completes no timed
interval for any bracketed stage (`det` in image mode; `mot` and `attr`
in video mode; the keypoint and action stages are never bracketed) nor
for the total time, and a tick with index beyond `warmup_frame`
completes exactly one interval per bracketed stage it runs and one total
interval.  The unit counter `img_num`, however, is gated only in video
mode: there a warm-up frame contributes zero and a later frame exactly
one, while in image mode every batch adds its batch size to `img_num`
regardless of its index. -/
theorem C1_amended_warmup_gating :
    ∀ (envI : ImgEnv) (envV : VidEnv) (s s' : PState) (input : List String)
      (i : Nat) (fr : Image),
      ((imageStep envI input s i).pipe_timer.img_num
          = s.pipe_timer.img_num + (sliceBatch input s.det_batch_size i).length) ∧
      (i ≤ s.warmup_frame →
        (imageStep envI input s i).pipe_timer.det.count = s.pipe_timer.det.count ∧
        (imageStep envI input s i).pipe_timer.attr.count = s.pipe_timer.attr.count ∧
        (imageStep envI input s i).pipe_timer.total_time.count
          = s.pipe_timer.total_time.count) ∧
      (s.warmup_frame < i →
        (imageStep envI input s i).pipe_timer.det.count
          = s.pipe_timer.det.count + 1 ∧
        (imageStep envI input s i).pipe_timer.attr.count
          = s.pipe_timer.attr.count + (if s.with_attr then 1 else 0) ∧
        (imageStep envI input s i).pipe_timer.total_time.count
          = s.pipe_timer.total_time.count + 1) ∧
      (stepVideo envV s i fr = Except.ok s' →
        (i ≤ s.warmup_frame →
          s'.pipe_timer.img_num = s.pipe_timer.img_num ∧
          s'.pipe_timer.mot.count = s.pipe_timer.mot.count ∧
          s'.pipe_timer.attr.count = s.pipe_timer.attr.count ∧
          s'.pipe_timer.total_time.count = s.pipe_timer.total_time.count) ∧
        (s.warmup_frame < i →
          s'.pipe_timer.img_num = s.pipe_timer.img_num + 1 ∧
          s'.pipe_timer.mot.count = s.pipe_timer.mot.count + 1 ∧
          s'.pipe_timer.attr.count
            = s.pipe_timer.attr.count + (if s.with_attr then 1 else 0) ∧
          s'.pipe_timer.total_time.count
            = s.pipe_timer.total_time.count + 1)) := by
  intro envI envV s s' input i fr
  obtain ⟨himg, hdet, hattr, htot⟩ := imageStep_timer_delta envI input s i
  refine ⟨himg, ?_, ?_, ?_⟩
  · intro hle
    have hni : ¬ s.warmup_frame < i := by omega
    rw [hdet, hattr, htot]
    simp [hni]
  · intro hgt
    rw [hdet, hattr, htot]
    cases hwa : s.with_attr <;> simp [hgt, hwa]
  · intro hok
    obtain ⟨vimg, vmot, vattr, vtot⟩ := stepVideo_timer_delta envV s s' i fr hok
    constructor
    · intro hle
      have hni : ¬ s.warmup_frame < i := by omega
      rw [vimg, vmot, vattr, vtot]
      simp [hni]
    · intro hgt
      rw [vimg, vmot, vattr, vtot]
      cases hwa : s.with_attr <;> simp [hgt, hwa]

/-- Concrete video environment for the C1 witness: one track box, aligned
attribute output, no action stage involved. -/
def envV1 : VidEnv :=
  { mot_predict := fun _ => ⟨[[0]]⟩
    attr_predict := fun _ => [("output", PyVal.list [])]
    kpt_predict := fun _ => ⟨[], []⟩
    action_predict := fun _ => []
    crop1 := fun f _ => f }

def sV1 : PState := PipePredictor.init cfgI1 true false

def sV1res : PState :=
  match stepVideo envV1 sV1 2 0 with
  | Except.ok s => s
  | Except.error _ => sV1

/-- C1 witness: the amended theorem applied at tick index 2 (past the
warm-up threshold 1) in both modes. -/
theorem C1_witness :
    sV1.warmup_frame < 2 ∧
    stepVideo envV1 sV1 2 0 = Except.ok sV1res ∧
    (imageStep envI1 ["a.jpg"] sV1 2).pipe_timer.det.count
      = sV1.pipe_timer.det.count + 1 ∧
    sV1res.pipe_timer.img_num = sV1.pipe_timer.img_num + 1 := by
  have heq : stepVideo envV1 sV1 2 0 = Except.ok sV1res := by rfl
  have h := C1_amended_warmup_gating envI1 envV1 sV1 sV1res ["a.jpg"] 2 0
  exact ⟨by decide, heq, (h.2.2.1 (by decide)).1, ((h.2.2.2 heq).2 (by decide)).1⟩

/-! ## Claim C5 -/

theorem sliceBoxes_of_nil_boxes (ns : List Nat) :
    ∀ g ∈ sliceBoxes ns ([] : List Box), g = ([] : List Box) := by
  induction ns with
  | nil =>
    intro g hg
    simp [sliceBoxes] at hg
  | cons n t ih =>
    intro g hg
    simp only [sliceBoxes, List.take_nil, List.drop_nil, List.mem_cons] at hg
    rcases hg with h | h
    · exact h
    · exact ih g h

theorem crop_det_nil_boxes (env : ImgEnv) (batch : List Image) (det : DetRes)
    (h : det.boxes = []) :
    ∀ g ∈ crop_image_with_det env batch det, g = ([] : List Image) := by
  intro g hg
  unfold crop_image_with_det at hg
  rw [h] at hg
  obtain ⟨p, hp, hpe⟩ := List.mem_map.mp hg
  have hz := List.of_mem_zip hp
  have h2 := sliceBoxes_of_nil_boxes det.boxes_num p.2 hz.2
  rw [← hpe, h2]
  rfl

theorem attr_fold_of_empty_groups (env : ImgEnv)
    (halign : ∀ crops : List Image, (env.attr_predict crops).length = crops.length) :
    ∀ (groups : List (List Image)) (acc : List PyVal),
      (∀ g ∈ groups, g = ([] : List Image)) →
      groups.foldl (fun a c => a ++ env.attr_predict c) acc = acc := by
  intro groups
  induction groups with
  | nil => intro acc _; rfl
  | cons g t ih =>
    intro acc hall
    have hg : g = [] := hall g (by simp)
    have he : env.attr_predict [] = [] := by
      have := halign []
      simpa [List.length_eq_zero] using this
    simp only [List.foldl_cons, hg, he, List.append_nil]
    exact ih acc (fun x hx => hall x (List.mem_cons_of_mem g hx))

/-- C5: in an image-mode tick with the attribute stage enabled and a
detector result with zero boxes, the pipeline neither raises nor skips
the attribute write: the `attr` entry of the result store receives an
`AttributeResult` whose `output` list is present and empty. -/
theorem C5_zero_boxes_empty_attr :
    ∀ (env : ImgEnv) (s : PState) (input : List String) (i : Nat),
      s.with_attr = true →
      (env.det_predict ((sliceBatch input s.det_batch_size i).map env.decode)).boxes
        = [] →
      (∀ crops : List Image, (env.attr_predict crops).length = crops.length) →
      alookup "output" ((imageStep env input s i).pipeline_res.attr)
        = some (PyVal.list []) ∧
      ((imageStep env input s i).pipeline_res.get "attr").isSome = true := by
  intro env s input i hattr hdet halign
  have hout : alookup "output" ((imageStep env input s i).pipeline_res.attr)
      = some (PyVal.list []) := by
    unfold imageStep
    dsimp only
    simp only [gatedTimer_with_attr, putRes_with_attr, gatedTimer_warmup_frame,
      putRes_warmup_frame, gatedTimer_det_batch_size, putRes_det_batch_size,
      hattr, if_true]
    have hzero : (crop_image_with_det env
          ((sliceBatch input s.det_batch_size i).map env.decode)
          (env.det_predict ((sliceBatch input s.det_batch_size i).map env.decode))).foldl
          (fun a c => a ++ env.attr_predict c) [] = [] :=
      attr_fold_of_empty_groups env halign _ []
        (crop_det_nil_boxes env _ _ hdet)
    simp only [mapTimer_pipeline_res, gatedTimer_pipeline_res,
      putRes_pipeline_res, hzero, setRes_attr_field]
    rw [alookup_pyDictUpdate _ _ _ (by simp)]
    rfl
  refine ⟨hout, ?_⟩
  simp [Result.get]

/-- C5 witness: the theorem applied at a concrete environment whose
detector returns zero boxes for a 1-image batch. -/
theorem C5_witness :
    sI1.with_attr = true ∧
    (envI1.det_predict ((sliceBatch ["a.jpg"] sI1.det_batch_size 0).map
        envI1.decode)).boxes = [] ∧
    alookup "output" ((imageStep envI1 ["a.jpg"] sI1 0).pipeline_res.attr)
      = some (PyVal.list []) := by
  have h := C5_zero_boxes_empty_attr envI1 sI1 ["a.jpg"] 0 rfl rfl
    (fun crops => by simp [envI1])
  exact ⟨rfl, rfl, h.1⟩

/-! ## Claim C3 -/

def cfgA : PipeCfg := ⟨1, false, true, 1, false⟩

/-- Concrete video environment for C3/C9: one tracked box per frame and a
keypoint predictor reporting identity 7, so with window size 1 the
collector is ready after the first frame. -/
def envA : VidEnv :=
  { mot_predict := fun _ => ⟨[[5]]⟩
    attr_predict := fun _ => []
    kpt_predict := fun _ => ⟨[("keypoint", PyVal.int 0)], [(7, 0)]⟩
    action_predict := fun _ => [("action", PyVal.int 1)]
    crop1 := fun f _ => f }

def sA : PState := PipePredictor.init cfgA true false

/-- C3: at the first frame whose keypoint window is full the collector
reports ready, but instead of storing the computed action result under
the `action` key the tick aborts: line 393 passes the undefined name
`action` (not `action_res`) to `Result.update`, so Python raises
`NameError` before the tick completes.  The code therefore never
performs the write the claim (and the spec's transition) requires. -/
theorem C3_action_ready_raises_name_error :
    (sA.kpt_collector.update (envA.kpt_predict
        (crop_image_with_mot envA 0 (envA.mot_predict 0))).perId).state = true ∧
    stepVideo envA sA 0 0
      = Except.error "NameError: name action is not defined" :=
  ⟨rfl, rfl⟩

/-! ## Claim C9 -/

/-- The frames delivered by the successful reads before the first failed
read. -/
def okFrames (reads : List (Option Image)) : List Image :=
  (reads.takeWhile Option.isSome).filterMap id

/-- Whether the tick processing `frame` reaches the action-ready branch
(pipeline.py line 389): the action stage is enabled and, after this
frame's keypoint update, some identity's window is full.  This is the
only failing path of a tick. -/
def tickActionReady (env : VidEnv) (s : PState) (frame : Image) : Bool :=
  s.with_action &&
    (s.kpt_collector.update
      (env.kpt_predict
        (crop_image_with_mot env frame (env.mot_predict frame))).perId).state

/-- Whether some tick dispatched by the video loop reaches the
action-ready branch.  The predicate walks the same states as the loop
itself and stops at the first failed read, so it is exactly the
trace-level guard "no tick triggers the action-ready branch". -/
def runHitsActionReady (env : VidEnv) (s : PState) (fid : Nat) :
    List (Option Image) → Bool
  | [] => false
  | none :: _ => false
  | some fr :: rest =>
    tickActionReady env s fr ||
      (match stepVideo env s fid fr with
       | Except.error _ => false
       | Except.ok s1 => runHitsActionReady env s1 (fid + 1) rest)

theorem stepVideo_ok_of_not_ready (env : VidEnv) (s : PState) (fid : Nat)
    (fr : Image) (h : tickActionReady env s fr = false) :
    ∃ s', stepVideo env s fid fr = Except.ok s' := by
  unfold tickActionReady at h
  unfold stepVideo
  dsimp only
  split_ifs <;> simp_all

theorem stepVideo_error_of_ready (env : VidEnv) (s : PState) (fid : Nat)
    (fr : Image) (h : tickActionReady env s fr = true) :
    stepVideo env s fid fr
      = Except.error "NameError: name action is not defined" := by
  unfold tickActionReady at h
  rw [Bool.and_eq_true] at h
  unfold stepVideo
  dsimp only
  split_ifs <;> simp_all

theorem videoLoop_guarded_run (env : VidEnv) :
    ∀ (reads : List (Option Image)) (s : PState) (fid : Nat)
      (acc : List Image) (w : Nat),
      runHitsActionReady env s fid reads = false → none ∈ reads →
      (videoLoop env s fid acc w reads).ending = VideoEnd.finished ∧
      (videoLoop env s fid acc w reads).processed = acc ++ okFrames reads ∧
      (videoLoop env s fid acc w reads).writer_released = true := by
  intro reads
  induction reads with
  | nil =>
    intro s fid acc w hg hmem
    simp at hmem
  | cons r t ih =>
    intro s fid acc w hg hmem
    cases r with
    | none =>
      refine ⟨rfl, ?_, rfl⟩
      simp [videoLoop, okFrames, List.takeWhile]
    | some fr =>
      unfold runHitsActionReady at hg
      cases htick : tickActionReady env s fr with
      | true =>
        rw [htick] at hg
        simp at hg
      | false =>
        rw [htick] at hg
        simp only [Bool.false_or] at hg
        obtain ⟨s1, h1⟩ := stepVideo_ok_of_not_ready env s fid fr htick
        simp only [h1] at hg
        have hmem2 : none ∈ t := by
          rcases List.mem_cons.mp hmem with h | h
          · cases h
          · exact h
        have hi := ih s1 (fid + 1) (acc ++ [fr])
          (if s1.visual then w + 1 else w) hg hmem2
        simp only [videoLoop, h1]
        refine ⟨hi.1, ?_, hi.2.2⟩
        rw [hi.2.1]
        simp [okFrames, List.takeWhile]

theorem videoLoop_crash_run (env : VidEnv) :
    ∀ (reads : List (Option Image)) (s : PState) (fid : Nat)
      (acc : List Image) (w : Nat),
      runHitsActionReady env s fid reads = true →
      (videoLoop env s fid acc w reads).ending = VideoEnd.crashed ∧
      (videoLoop env s fid acc w reads).writer_released = false := by
  intro reads
  induction reads with
  | nil =>
    intro s fid acc w hg
    simp [runHitsActionReady] at hg
  | cons r t ih =>
    intro s fid acc w hg
    cases r with
    | none => simp [runHitsActionReady] at hg
    | some fr =>
      unfold runHitsActionReady at hg
      cases htick : tickActionReady env s fr with
      | true =>
        have herr := stepVideo_error_of_ready env s fid fr htick
        simp only [videoLoop, herr]
        exact ⟨trivial, trivial⟩
      | false =>
        rw [htick] at hg
        simp only [Bool.false_or] at hg
        cases h1 : stepVideo env s fid fr with
        | error e =>
          simp [h1] at hg
        | ok s1 =>
          simp only [h1] at hg
          have hi := ih s1 (fid + 1) (acc ++ [fr])
            (if s1.visual then w + 1 else w) hg
          simp only [videoLoop, h1]
          exact hi

theorem runHits_false_of_no_action (env : VidEnv) :
    ∀ (reads : List (Option Image)) (s : PState) (fid : Nat),
      s.with_action = false → runHitsActionReady env s fid reads = false := by
  intro reads
  induction reads with
  | nil => intro s fid h; rfl
  | cons r t ih =>
    intro s fid h
    cases r with
    | none => rfl
    | some fr =>
      have htick : tickActionReady env s fr = false := by
        unfold tickActionReady
        rw [h]
        rfl
      unfold runHitsActionReady
      rw [htick]
      simp only [Bool.false_or]
      cases h1 : stepVideo env s fid fr with
      | error e => simp [h1]
      | ok s1 =>
        simp only [h1]
        have hA1 : s1.with_action = false := by
          have h2 := (stepVideo_preserves_flags env s s1 fid fr h1).2.1
          rw [h2, h]
        exact ih s1 (fid + 1) hA1

/-- C9 amended: for every video source whose reads eventually fail,
provided no tick triggers the action-ready branch (trace-level guard
`runHitsActionReady = false`, which holds in particular whenever the
action stage is disabled — last conjunct), the loop terminates at the
first failed read, having dispatched exactly the successfully read
frames in order, and then releases the writer; it never processes a
frame from a failed read.  Whenever some tick does reach the
action-ready branch the run instead aborts — the tick raises the
line-393 `NameError` (third conjunct, proved for every such tick) and
the loop ends crashed with the writer never released (second
conjunct). -/
theorem C9_amended_video_loop_termination :
    ∀ (env : VidEnv) (s : PState) (reads : List (Option Image)) (fid : Nat)
      (fr : Image),
      (runHitsActionReady env s 0 reads = false → none ∈ reads →
        (predict_video env s reads).ending = VideoEnd.finished ∧
        (predict_video env s reads).processed = okFrames reads ∧
        (predict_video env s reads).writer_released = true) ∧
      (runHitsActionReady env s 0 reads = true →
        (predict_video env s reads).ending = VideoEnd.crashed ∧
        (predict_video env s reads).writer_released = false) ∧
      (tickActionReady env s fr = true →
        stepVideo env s fid fr
          = Except.error "NameError: name action is not defined") ∧
      (s.with_action = false → runHitsActionReady env s 0 reads = false) := by
  intro env s reads fid fr
  refine ⟨?_, ?_, ?_, ?_⟩
  · intro hg hm
    have h := videoLoop_guarded_run env reads s 0 [] 0 hg hm
    simpa [predict_video] using h
  · intro hg
    have h := videoLoop_crash_run env reads s 0 [] 0 hg
    simpa [predict_video] using h
  · exact stepVideo_error_of_ready env s fid fr
  · exact runHits_false_of_no_action env reads s 0

/-- C9 counterexample: a source whose second read fails, but whose first
frame fills the action window — the run aborts with the `NameError`
instead of breaking at the failed read, and `writer.release()` never
runs, contradicting the claim that every end-of-stream run processes the
read frames and releases the writer. -/
theorem C9_counterexample :
    none ∈ [some 0, none] ∧
    (predict_video envA sA [some 0, none]).ending = VideoEnd.crashed ∧
    (predict_video envA sA [some 0, none]).writer_released = false :=
  ⟨by simp, rfl, rfl⟩

def cfgV9 : PipeCfg := ⟨1, false, false, 30, false⟩

def envV9 : VidEnv :=
  { mot_predict := fun _ => ⟨[]⟩
    attr_predict := fun _ => []
    kpt_predict := fun _ => ⟨[], []⟩
    action_predict := fun _ => []
    crop1 := fun f _ => f }

/-- Action stage enabled with window 30: a short run never fills the
window, so no tick is action-ready. -/
def cfgW9 : PipeCfg := ⟨1, false, true, 30, false⟩

def sW9 : PState := PipePredictor.init cfgW9 true false

/-- C9 witness: the amended theorem applied concretely — an
action-enabled run (window 30) whose single frame never fills the
window finishes, processes its frame and releases the writer; the
action-ready run of the same environment crashes without the release,
its ready tick yielding the `NameError`; and an action-disabled state
satisfies the guard. -/
theorem C9_witness :
    sW9.with_action = true ∧
    runHitsActionReady envA sW9 0 [some 0, none] = false ∧
    none ∈ [some 0, none] ∧
    (predict_video envA sW9 [some 0, none]).ending = VideoEnd.finished ∧
    (predict_video envA sW9 [some 0, none]).processed = [0] ∧
    (predict_video envA sW9 [some 0, none]).writer_released = true ∧
    runHitsActionReady envA sA 0 [some 0, none] = true ∧
    (predict_video envA sA [some 0, none]).ending = VideoEnd.crashed ∧
    (predict_video envA sA [some 0, none]).writer_released = false ∧
    tickActionReady envA sA 0 = true ∧
    stepVideo envA sA 0 0
      = Except.error "NameError: name action is not defined" ∧
    runHitsActionReady envV9 (PipePredictor.init cfgV9 true false) 0
      [some 3, none] = false := by
  obtain ⟨ha, -, -, -⟩ :=
    C9_amended_video_loop_termination envA sW9 [some 0, none] 0 0
  obtain ⟨-, hb, hc, -⟩ :=
    C9_amended_video_loop_termination envA sA [some 0, none] 0 0
  obtain ⟨-, -, -, hd⟩ :=
    C9_amended_video_loop_termination envV9 (PipePredictor.init cfgV9 true false)
      [some 3, none] 0 0
  have hrun := ha rfl (by simp)
  have hcrash := hb rfl
  exact ⟨rfl, rfl, by simp, hrun.1, hrun.2.1.trans (by rfl), hrun.2.2,
    rfl, hcrash.1, hcrash.2, rfl, hc rfl, hd rfl⟩

/-! ## Claim C7 -/

theorem zip_map_const_self {α β : Type} (c : β) (l : List α) :
    (l.map (fun _ => c)).zip l = l.map (fun x => (c, x)) := by
  induction l with
  | nil => rfl
  | cons a t ih => simp only [List.map_cons, List.zip_cons_cons, ih]

theorem runMulti_eq_map (env : VidEnv) (cfg : PipeCfg)
    (streams : List (List (Option Image))) :
    Pipeline.runMulti env cfg streams
      = streams.map (predict_video env (PipePredictor.init cfg true true)) := by
  unfold Pipeline.runMulti Pipeline.initMulti
  rw [zip_map_const_self, List.map_map]
  rfl

/-- C7: the multi-camera `Pipeline` constructs one `PipePredictor` per
input stream, each freshly initialised (its own `Result` store,
`PipeTimer` and keypoint collector), and the outcome of stream `j` is a
function of stream `j`'s input alone: its state and snapshot never
reflect another stream's frames, and two runs whose stream-`j` inputs
agree produce identical stream-`j` outcomes whatever the other streams
carry. -/
theorem C7_stream_independence :
    ∀ (cfg : PipeCfg) (env : VidEnv) (streams : List (List (Option Image))),
      Pipeline.initMulti cfg streams
        = streams.map (fun _ => PipePredictor.init cfg true true) ∧
      (∀ j : Nat, (Pipeline.runMulti env cfg streams)[j]?
          = (streams[j]?).map
            (predict_video env (PipePredictor.init cfg true true))) ∧
      (∀ (streams2 : List (List (Option Image))) (j : Nat),
          streams[j]? = streams2[j]? →
          (Pipeline.runMulti env cfg streams)[j]?
            = (Pipeline.runMulti env cfg streams2)[j]?) := by
  intro cfg env streams
  refine ⟨rfl, ?_, ?_⟩
  · intro j
    rw [runMulti_eq_map, List.getElem?_map]
  · intro streams2 j hj
    rw [runMulti_eq_map, runMulti_eq_map, List.getElem?_map, List.getElem?_map,
      hj]

/-- C7 witness: two stream lists that agree on stream 1 but differ on
stream 0 give identical stream-1 outcomes. -/
theorem C7_witness :
    (([[Option.none], [some 1, none]] : List (List (Option Image)))[1]?
      = ([[some 5, none], [some 1, none]] : List (List (Option Image)))[1]?) ∧
    (Pipeline.runMulti envV9 cfgV9 [[Option.none], [some 1, none]])[1]?
      = (Pipeline.runMulti envV9 cfgV9 [[some 5, none], [some 1, none]])[1]? := by
  have h := (C7_stream_independence cfgV9 envV9 [[Option.none], [some 1, none]]).2.2
    [[some 5, none], [some 1, none]] 1 (by simp)
  exact ⟨by simp, h⟩

end PPHuman
